import Mathlib

/-
Shallow embedding of the pdf_tools repository:
  src/pdf_splitter.py
  src/pdft_utils/files_management.py
  src/pdft_types/output_file.py

Modelling conventions:
  - Interactive standard input is a `List String` of lines; a function that
    reads input consumes a prefix of that list and returns the remaining
    lines.  Reaching the end of the list (Python: `input()` raising
    `EOFError`) is modelled as `none`.
  - Error messages printed by `print(...)` are collected into a
    `List String` (prompt strings and banner lines are not modelled, only
    the validation error messages that the claims talk about).
  - The filesystem is an explicit `FS` record of the primitives the code
    uses (`os.path.exists`, `os.listdir`); the PDF engine is a
    `PdfFileReader` record exposing the page count, exactly as the code
    consumes it.
  - Python string methods are embedded as executable functions over
    `String.data` (the character list), so every definition evaluates by
    kernel reduction.
  - Python exceptions are values of the inductive `PyErr`.
-/

/-- Python `str.strip()` with no argument: remove whitespace from both
ends.  (Python also strips some Unicode whitespace beyond
`Char.isWhitespace`; no claim depends on that.) -/
def pyStrip (s : String) : String :=
  ⟨(((s.data.dropWhile Char.isWhitespace).reverse).dropWhile Char.isWhitespace).reverse⟩

/-- Python membership test `c in s` for a character and a string. -/
def strContainsChar (s : String) (c : Char) : Bool :=
  s.data.contains c

/-- Python `any(p(c) for c in s)`. -/
def strAny (s : String) (p : Char → Bool) : Bool :=
  s.data.any p

/-- Python `s.startswith(t)`. -/
def strStartsWith (s t : String) : Bool :=
  List.isPrefixOf t.data s.data

/-- Python `s.endswith(t)`. -/
def strEndsWith (s t : String) : Bool :=
  List.isSuffixOf t.data s.data

/-- Python `len(s)`: the number of characters. -/
def strLen (s : String) : Nat :=
  s.data.length

/-- Python `s.lower()`, restricted to ASCII case mapping
(Python lowercases the full Unicode range; no claim depends on that). -/
def strLower (s : String) : String :=
  ⟨s.data.map Char.toLower⟩

/-- Python exceptions that can reach the driver.  `ioError` stands for
`OSError`/`IOError`; `notADirectory` is `NotADirectoryError` (a subclass of
`OSError`); `indexError` is `IndexError`; `other` is any other exception,
carrying `str(e)`. -/
inductive PyErr
| fileNotFound
| ioError
| notADirectory
| indexError
| other (msg : String)
deriving DecidableEq

/-- The forbidden-character string of `get_file_name`
(`forbidden_chars = '<>:"/\\|?*'`, pdf_splitter.py line 96). -/
def forbidden_chars : String := "<>:\"/\\|?*"

/-- Value of a list of decimal digit characters. -/
def decimalVal (cs : List Char) : Nat :=
  cs.foldl (fun a c => 10 * a + (c.toNat - 48)) 0

/-- Embedding of the Python builtin `int(s)` as used by `get_int`
(pdf_splitter.py line 73): surrounding whitespace is ignored, an optional
leading sign is allowed, and the rest must be a nonempty digit string;
anything else raises `ValueError`, modelled as `none`.  (Python additionally
accepts underscore digit separators and non-ASCII decimal digits; those are
not modelled, and no claim depends on them.) -/
def parsePyInt (s : String) : Option Int :=
  match (pyStrip s).data with
  | [] => none
  | '+' :: cs =>
      if cs ≠ [] ∧ cs.all Char.isDigit = true then some (Int.ofNat (decimalVal cs)) else none
  | '-' :: cs =>
      if cs ≠ [] ∧ cs.all Char.isDigit = true then some (-(Int.ofNat (decimalVal cs))) else none
  | c :: cs =>
      if (c :: cs).all Char.isDigit = true then some (Int.ofNat (decimalVal (c :: cs))) else none

/-- The fixed message printed by `get_int` on a parse failure
(pdf_splitter.py line 79). -/
def not_a_number_msg : String := "Please enter a number."

/-- Embedding of `get_int(prompt, error_msg, min, max)`
(pdf_splitter.py lines 66-81).  The Python parameters `min`/`max` are named
`mn`/`mx` here.  Each loop iteration reads one line; on `ValueError` the
fixed not-a-number message is printed and the loop retries; on a parsed
value outside `[mn, mx]` the `error_msg` is printed and the loop retries;
otherwise the value is returned.  The result is
`some (value, printed messages, remaining stdin)`, or `none` when stdin is
exhausted before a valid value appears. -/
def get_int (error_msg : String) (mn mx : Int) :
    List String → Option (Int × List String × List String)
| [] => none
| line :: rest =>
  match parsePyInt line with
  | none =>
    match get_int error_msg mn mx rest with
    | none => none
    | some (x, msgs, rem) => some (x, not_a_number_msg :: msgs, rem)
  | some x =>
    if mn ≤ x ∧ x ≤ mx then some (x, [], rest)
    else
      match get_int error_msg mn mx rest with
      | none => none
      | some (y, msgs, rem) => some (y, error_msg :: msgs, rem)

/-- A stdin line that `get_int mn mx` would accept. -/
def intValid (mn mx : Int) (line : String) : Prop :=
  ∃ x, parsePyInt line = some x ∧ mn ≤ x ∧ x ≤ mx

/-- The message `get_int` prints for a rejected line: the fixed
not-a-number message on a parse failure, `error_msg` on an out-of-range
value. -/
def rejectMsg (error_msg line : String) : String :=
  match parsePyInt line with
  | none => not_a_number_msg
  | some _ => error_msg

/-- The validation chain of `get_file_name` (pdf_splitter.py lines
99-121), as a function from the already-trimmed name to the error message
it prints, `none` meaning the name is accepted (the `done = True` branch).
The branches appear in exactly the order of the if/elif chain in the
source.  Python `c.isalnum()` is modelled by `Char.isAlphanum` (ASCII
letters and digits; no claim depends on non-ASCII alphanumerics). -/
def fileNameCheck (name : String) (allow_hidden : Bool) : Option String :=
  if name = "" then
    some "File name cannot be empty."
  else if strAny name (fun c => strContainsChar forbidden_chars c) then
    some ("File name cannot contain any of these characters: " ++ forbidden_chars)
  else if !allow_hidden && strStartsWith name "." then
    some "File name cannot start with a dot."
  else if 255 < strLen name then
    some "File name is too long. Maximum length is 255 characters."
  else if !(strAny name Char.isAlphanum) then
    some "File name must contain at least one letter or number."
  else
    none

/-- Embedding of `get_file_name(prompt, error_msg, allow_hidden=False)`
(pdf_splitter.py lines 83-126).  In the source, the `return name`
statement sits inside the `while not done` body, after the if/elif chain,
so the body always returns after the first read: exactly one line is
consumed, the first applicable error message (if any) is printed, and the
trimmed line is returned whether or not validation succeeded.  The
`error_msg` parameter of the source is never used and is omitted.
Result: `some (returned name, printed messages, remaining stdin)`. -/
def get_file_name (allow_hidden : Bool) :
    List String → Option (String × List String × List String)
| [] => none
| line :: rest =>
  match fileNameCheck (pyStrip line) allow_hidden with
  | some m => some (pyStrip line, [m], rest)
  | none => some (pyStrip line, [], rest)

/-- The filesystem primitives used by the code: `os.path.exists`,
`os.path.isdir` (implicit in the behaviour of `os.listdir`) and
`os.listdir`. -/
structure FS where
  pathExists : String → Bool
  isDir : String → Bool
  listdir : String → List String

/-- Possible outcomes of `list_pdf_files`: `notFound` is the Python
`None` return; `files l` is a returned list; `notADirectory` is the
`NotADirectoryError` that `os.listdir` raises when the path exists but is
not a directory (this exception propagates out of the function, which has
no handler). -/
inductive ListPdfResult
| notFound
| notADirectory
| files (l : List String)
deriving DecidableEq

/-- Embedding of `list_pdf_files(directory_path)`
(pdft_utils/files_management.py lines 3-24, duplicated verbatim in
pdf_splitter.py lines 43-64).  The source checks `os.path.exists` only;
when the path exists but is not a directory, the subsequent
`os.listdir(directory_path)` call raises `NotADirectoryError`, embedded
here via the `isDir` test.  For an existing directory the result filters
the direct entries with `file.lower().endswith('.pdf')`. -/
def list_pdf_files (fs : FS) (directory_path : String) : ListPdfResult :=
  if !(fs.pathExists directory_path) then
    ListPdfResult.notFound
  else if !(fs.isDir directory_path) then
    ListPdfResult.notADirectory
  else
    ListPdfResult.files
      ((fs.listdir directory_path).filter (fun f => strEndsWith (strLower f) ".pdf"))

/-- Embedding of `os.path.join(a, b)` (POSIX semantics): an absolute
second component replaces the first; otherwise the components are joined
with a single separator. -/
def osPathJoin (a b : String) : String :=
  if strStartsWith b "/" then b
  else if a = "" then b
  else if strEndsWith a "/" then a ++ b
  else a ++ "/" ++ b

/-- Embedding of the `OutputFile` class (pdf_splitter.py lines 7-26;
pdft_types/output_file.py has the same class).  The `stream` field holds
the path of the file opened for writing (`open(os.path.join(path, name),
'wb')`, which creates or truncates that file as a side effect of
construction). -/
structure OutputFile where
  name : String
  page_interval : Int × Int
  current_page : Int
  stream : String
deriving DecidableEq

/-- Embedding of `OutputFile.__init__(path, name, page_interval)`
(pdf_splitter.py lines 8-12): the cursor starts at the low end of the
interval and the destination file is opened immediately. -/
def OutputFile.init (path name : String) (page_interval : Int × Int) : OutputFile :=
  { name := name, page_interval := page_interval,
    current_page := page_interval.1, stream := osPathJoin path name }

/-- The loop of the `pages` generator (pdf_splitter.py lines 14-20):
starting from cursor `cur`, yield and increment while `cur ≤ stop`.
Returns the yielded list and the final cursor value. -/
def pagesRun (cur stop : Int) : List Int × Int :=
  if h : cur ≤ stop then
    let r := pagesRun (cur + 1) stop
    (cur :: r.1, r.2)
  else ([], cur)
termination_by (stop + 1 - cur).toNat
decreasing_by simp_wf; omega

/-- Embedding of fully consuming the `OutputFile.pages()` generator:
the yielded page numbers, plus the object with its mutated
`current_page` field (the cursor is a field of the object, so a second
full consumption starts from where the first stopped). -/
def OutputFile.pages (o : OutputFile) : List Int × OutputFile :=
  ((pagesRun o.current_page o.page_interval.2).1,
   { o with current_page := (pagesRun o.current_page o.page_interval.2).2 })

/-- The PDF engine state the code consumes: `PdfFileReader` exposing
`getNumPages()`.  Pages are identified by their 0-based index. -/
structure PdfFileReader where
  numPages : Int
deriving DecidableEq

/-- Embedding of `reader.getPage(i)`: PyPDF3 indexes a Python list of
flattened pages, so indices in `[0, numPages)` return the page, negative
indices in `[-numPages, 0)` wrap around, and anything else raises
`IndexError`. -/
def PdfFileReader.getPage (r : PdfFileReader) (i : Int) : Except PyErr Int :=
  if 0 ≤ i ∧ i < r.numPages then Except.ok i
  else if -r.numPages ≤ i ∧ i < 0 then Except.ok (r.numPages + i)
  else Except.error PyErr.indexError

/-- The inner loop of `generate_output_files` (pdf_splitter.py lines
167-169): `writer.addPage(reader.getPage(page_number - 1))` for each
yielded page number, accumulating the writer document; the first
exception propagates. -/
def addPages (r : PdfFileReader) : List Int → Except PyErr (List Int)
| [] => Except.ok []
| p :: ps =>
  match r.getPage (p - 1) with
  | Except.error e => Except.error e
  | Except.ok pg =>
    match addPages r ps with
    | Except.error e => Except.error e
    | Except.ok rest => Except.ok (pg :: rest)

/-- Observable events of the generation step: `wrote s doc` is
`writer.write(output.stream)` serialising document `doc` (a list of
0-based source page indices) to the stream `s`; `generated n iv` is the
completion callback invoked with the output (the driver prints
`Generated: <n> (<iv.1>-<iv.2>)` from it, via `OutputFile.__str__`). -/
inductive Ev
| wrote (stream : String) (doc : List Int)
| generated (name : String) (interval : Int × Int)
deriving DecidableEq

/-- Embedding of `generate_output_files(reader, output_files,
generated_callback)` (pdf_splitter.py lines 160-175).  `writeOk` models
the environment: whether `writer.write` on a given stream succeeds or
raises `IOError`.  The result is the ordered event trace together with
the exception that aborted the loop, if any; events of outputs completed
before a failure stay in the trace (nothing is rolled back). -/
def generate_output_files (r : PdfFileReader) (writeOk : String → Bool) :
    List OutputFile → List Ev × Option PyErr
| [] => ([], none)
| o :: rest =>
  match addPages r ((OutputFile.pages o).1) with
  | Except.error e => ([], some e)
  | Except.ok doc =>
    if writeOk o.stream then
      let t := generate_output_files r writeOk rest
      (Ev.wrote o.stream doc :: Ev.generated o.name o.page_interval :: t.1, t.2)
    else ([], some PyErr.ioError)

/-- The per-output hypotheses the driver establishes before generation:
the cursor is fresh (`current_page = start`, as set by `__init__`) and
the interval obeys the prompt bounds `1 ≤ start ≤ end ≤ page_count`
(pdf_splitter.py lines 154-156). -/
def validPlan (r : PdfFileReader) (o : OutputFile) : Prop :=
  o.current_page = o.page_interval.1 ∧ 1 ≤ o.page_interval.1 ∧
  o.page_interval.1 ≤ o.page_interval.2 ∧ o.page_interval.2 ≤ r.numPages

instance (r : PdfFileReader) (o : OutputFile) : Decidable (validPlan r o) :=
  inferInstanceAs (Decidable (o.current_page = o.page_interval.1 ∧
    1 ≤ o.page_interval.1 ∧ o.page_interval.1 ≤ o.page_interval.2 ∧
    o.page_interval.2 ≤ r.numPages))

/-- The writer document produced for one freshly constructed output:
the 0-based indices `start - 1, …, end - 1` in ascending order. -/
def docOf (o : OutputFile) : List Int :=
  (List.range (o.page_interval.2 + 1 - o.page_interval.1).toNat).map
    (fun (i : Nat) => o.page_interval.1 - 1 + (i : Int))

/-- The two events one successful output contributes, in order: the
write of its document, then its completion callback. -/
def evsOf (o : OutputFile) : List Ev :=
  [Ev.wrote o.stream (docOf o), Ev.generated o.name o.page_interval]

/-- Embedding of the `except` chain around `generate_output_files` in
`main` (pdf_splitter.py lines 216-223): `except FileNotFoundError` prints
`File not found: <selected_file>`; `except IOError` (which in Python also
catches `NotADirectoryError`, both being `OSError`) prints
`Error reading file: <selected_file>`; `except Exception as e` prints
`An unexpected error occurred: <str(e)>`. -/
def reportGenError (selected_file : String) : PyErr → String
| PyErr.fileNotFound => "File not found: " ++ selected_file
| PyErr.ioError => "Error reading file: " ++ selected_file
| PyErr.notADirectory => "Error reading file: " ++ selected_file
| PyErr.indexError => "An unexpected error occurred: list index out of range"
| PyErr.other m => "An unexpected error occurred: " ++ m

/-- Result of `get_output_files`: the plan, the printed validation
messages, the destination paths opened (in order, one per constructed
OutputFile, opened at construction time), and the remaining stdin. -/
structure CollectResult where
  targets : List OutputFile
  msgs : List String
  opens : List String
  rest : List String
deriving DecidableEq

/-- The `for i in range(target_count)` loop of `get_output_files`
(pdf_splitter.py lines 150-156): per target, read a name through
`get_file_name` (default `allow_hidden=False`), a start page in
`[1, page_count]`, an end page in `[start, page_count]`, and construct
`OutputFile(path, f'{name}.pdf', (start, end))` — appending the suffix
to whatever string `get_file_name` returned. -/
def collectTargets (path : String) (page_count : Int) :
    Nat → List String → Option CollectResult
| 0, stdin => some ⟨[], [], [], stdin⟩
| Nat.succ k, stdin =>
  match get_file_name false stdin with
  | none => none
  | some (name, m1, s1) =>
    match get_int "Invalid page number" 1 page_count s1 with
    | none => none
    | some (start, m2, s2) =>
      match get_int "Invalid page number" start page_count s2 with
      | none => none
      | some (en, m3, s3) =>
        match collectTargets path page_count k s3 with
        | none => none
        | some rres =>
          some ⟨OutputFile.init path (name ++ ".pdf") (start, en) :: rres.targets,
                m1 ++ m2 ++ m3 ++ rres.msgs,
                (OutputFile.init path (name ++ ".pdf") (start, en)).stream :: rres.opens,
                rres.rest⟩

/-- Embedding of `get_output_files(path, page_count)` (pdf_splitter.py
lines 141-158): read the target count in `[1, 100]`, then collect that
many targets. -/
def get_output_files (path : String) (page_count : Int) (stdin : List String) :
    Option CollectResult :=
  match get_int "Please enter a number between 1 and 100" 1 100 stdin with
  | none => none
  | some (cnt, m0, s0) =>
    match collectTargets path page_count cnt.toNat s0 with
    | none => none
    | some rres => some ⟨rres.targets, m0 ++ rres.msgs, rres.opens, rres.rest⟩

/-- Concrete filesystem for the C4 counterexample: exactly one entry
exists, the regular (non-directory) file `notes.txt`. -/
def fsFile : FS :=
  { pathExists := fun p => p == "notes.txt", isDir := fun _ => false,
    listdir := fun _ => [] }

/-- Concrete filesystem for the C4 witness: every path is an existing
directory with entries `a.PDF` and `b.txt`. -/
def fsDir : FS :=
  { pathExists := fun _ => true, isDir := fun _ => true,
    listdir := fun _ => ["a.PDF", "b.txt"] }

/-- Concrete three-page reader for witnesses. -/
def rdr3 : PdfFileReader := { numPages := 3 }

/-- One unfolding step of the pages loop. -/
theorem pagesRun_step (cur stop : Int) :
    pagesRun cur stop = if cur ≤ stop then
      (cur :: (pagesRun (cur + 1) stop).1, (pagesRun (cur + 1) stop).2)
    else ([], cur) := by
  rw [pagesRun]
  by_cases h : cur ≤ stop
  · rw [dif_pos h, if_pos h]
  · rw [dif_neg h, if_neg h]

theorem pagesRun_spec_aux : ∀ (n : Nat) (cur stop : Int), (stop + 1 - cur).toNat = n →
    pagesRun cur stop =
      ((List.range (stop + 1 - cur).toNat).map (fun (i : Nat) => cur + (i : Int)),
       if cur ≤ stop then stop + 1 else cur) := by
  intro n
  induction n with
  | zero =>
    intro cur stop hn
    have hcs : ¬ cur ≤ stop := by omega
    rw [pagesRun_step, if_neg hcs, hn, if_neg hcs]
    simp
  | succ k ih =>
    intro cur stop hn
    have hcs : cur ≤ stop := by omega
    have hk : (stop + 1 - (cur + 1)).toNat = k := by omega
    rw [pagesRun_step, if_pos hcs, ih (cur + 1) stop hk, hk, hn, if_pos hcs]
    have h2 : (if cur + 1 ≤ stop then stop + 1 else cur + 1) = stop + 1 := by
      split <;> omega
    rw [h2]
    have h3 : (List.range (k + 1)).map (fun (i : Nat) => cur + (i : Int)) =
        cur :: (List.range k).map (fun (i : Nat) => cur + 1 + (i : Int)) := by
      rw [List.range_succ_eq_map, List.map_cons, List.map_map]
      have h4 : ((fun (i : Nat) => cur + (i : Int)) ∘ Nat.succ) =
          (fun (i : Nat) => cur + 1 + (i : Int)) := by
        funext i
        simp only [Function.comp]
        push_cast
        ring
      rw [h4]
      simp
    rw [h3]

/-- Closed form of the pages loop: it yields the ascending integers from
the cursor to the end of the interval and leaves the cursor one past the
end (or unchanged when the interval is already exhausted). -/
theorem pagesRun_closed (cur stop : Int) :
    pagesRun cur stop =
      ((List.range (stop + 1 - cur).toNat).map (fun (i : Nat) => cur + (i : Int)),
       if cur ≤ stop then stop + 1 else cur) :=
  pagesRun_spec_aux ((stop + 1 - cur).toNat) cur stop rfl

/-- Every yielded page number lies between the cursor and the end. -/
theorem mem_pagesRun (p cur stop : Int) (h : p ∈ (pagesRun cur stop).1) :
    cur ≤ p ∧ p ≤ stop := by
  rw [pagesRun_closed] at h
  simp only [List.mem_map, List.mem_range] at h
  obtain ⟨i, hi, rfl⟩ := h
  omega

/-- C1: For every input line, `get_file_name` reads exactly one line
(the remaining stdin is untouched), trims surrounding whitespace, prints
the first applicable validation message if there is one, and returns the
trimmed string in every case — including when a validation check fails;
it never loops to read a second line. -/
theorem get_file_name_single_pass (ah : Bool) (line : String) (rest : List String) :
    get_file_name ah (line :: rest) =
      some (pyStrip line, (fileNameCheck (pyStrip line) ah).toList, rest) := by
  simp only [get_file_name]
  cases h : fileNameCheck (pyStrip line) ah <;> simp [h]

/-- C7: the validator rejects every trimmed name containing a character
from `<>:"/\|?*`; more generally it accepts exactly the names that are
non-empty, contain no forbidden character, do not start with a dot when
`allow_hidden` is false, have length at most 255, and contain at least
one alphanumeric character — and the five checks fire in exactly that
order (each message equation below requires all earlier checks to have
passed and the corresponding check to fail). -/
theorem file_name_validator_accepts_iff :
    (∀ (line : String) (ah : Bool),
        strAny (pyStrip line) (fun c => strContainsChar forbidden_chars c) = true →
        fileNameCheck (pyStrip line) ah ≠ none) ∧
    (∀ (n : String) (ah : Bool), fileNameCheck n ah = none ↔
        (¬ n = "" ∧ strAny n (fun c => strContainsChar forbidden_chars c) = false ∧
         (ah = true ∨ strStartsWith n "." = false) ∧
         strLen n ≤ 255 ∧ strAny n Char.isAlphanum = true)) ∧
    (∀ ah, fileNameCheck "" ah = some "File name cannot be empty.") ∧
    (∀ (n : String) (ah : Bool), ¬ n = "" →
        strAny n (fun c => strContainsChar forbidden_chars c) = true →
        fileNameCheck n ah =
          some ("File name cannot contain any of these characters: " ++ forbidden_chars)) ∧
    (∀ (n : String), ¬ n = "" →
        strAny n (fun c => strContainsChar forbidden_chars c) = false →
        strStartsWith n "." = true →
        fileNameCheck n false = some "File name cannot start with a dot.") ∧
    (∀ (n : String) (ah : Bool), ¬ n = "" →
        strAny n (fun c => strContainsChar forbidden_chars c) = false →
        (ah = true ∨ strStartsWith n "." = false) →
        255 < strLen n →
        fileNameCheck n ah =
          some "File name is too long. Maximum length is 255 characters.") ∧
    (∀ (n : String) (ah : Bool), ¬ n = "" →
        strAny n (fun c => strContainsChar forbidden_chars c) = false →
        (ah = true ∨ strStartsWith n "." = false) →
        strLen n ≤ 255 →
        strAny n Char.isAlphanum = false →
        fileNameCheck n ah =
          some "File name must contain at least one letter or number.") := by
  refine ⟨?_, ?_, ?_, ?_, ?_, ?_, ?_⟩
  · intro line ah hforb hnone
    rw [fileNameCheck] at hnone
    split_ifs at hnone
  · intro n ah
    rw [fileNameCheck]
    split_ifs with h1 h2 h3 h4 h5
    · exact iff_of_false (by simp) (by rintro ⟨h, _⟩; exact h h1)
    · exact iff_of_false (by simp) (by rintro ⟨_, h, _⟩; rw [h2] at h; cases h)
    · refine iff_of_false (by simp) ?_
      simp only [Bool.and_eq_true, Bool.not_eq_true'] at h3
      rintro ⟨_, _, h, _⟩
      rcases h with h | h
      · rw [h3.1] at h; cases h
      · rw [h3.2] at h; cases h
    · exact iff_of_false (by simp) (by rintro ⟨_, _, _, h, _⟩; omega)
    · refine iff_of_false (by simp) ?_
      simp only [Bool.not_eq_true'] at h5
      rintro ⟨_, _, _, _, h⟩
      rw [h5] at h; cases h
    · refine iff_of_true rfl ⟨h1, ?_, ?_, by omega, ?_⟩
      · cases h : strAny n (fun c => strContainsChar forbidden_chars c)
        · rfl
        · exact absurd h h2
      · cases hah : ah
        · cases hsw : strStartsWith n "."
          · exact Or.inr rfl
          · exact absurd (by rw [hah, hsw]; decide) h3
        · exact Or.inl rfl
      · cases h : strAny n Char.isAlphanum
        · exact absurd (by rw [h]; decide) h5
        · rfl
  · intro ah
    rw [fileNameCheck, if_pos rfl]
  · intro n ah h1 h2
    rw [fileNameCheck, if_neg h1, if_pos h2]
  · intro n h1 h2 h3
    rw [fileNameCheck, if_neg h1, if_neg (by simp [h2]), if_pos (by rw [h3]; rfl)]
  · intro n ah h1 h2 h3 h4
    have h3f : (!ah && strStartsWith n ".") = false := by
      rcases h3 with h | h
      · rw [h]; rfl
      · simp [h]
    rw [fileNameCheck, if_neg h1, if_neg (by simp [h2]), if_neg (by simp [h3f]),
      if_pos h4]
  · intro n ah h1 h2 h3 h4 h5
    have h3f : (!ah && strStartsWith n ".") = false := by
      rcases h3 with h | h
      · rw [h]; rfl
      · simp [h]
    rw [fileNameCheck, if_neg h1, if_neg (by simp [h2]), if_neg (by simp [h3f]),
      if_neg (by omega), if_pos (by simp [h5])]

theorem file_name_validator_accepts_iff_witness :
    strAny (pyStrip " a<b ") (fun c => strContainsChar forbidden_chars c) = true ∧
    fileNameCheck (pyStrip " a<b ") false ≠ none :=
  ⟨by decide, file_name_validator_accepts_iff.1 " a<b " false (by decide)⟩

/-- C3: for `1 ≤ start ≤ end ≤ page_count`, a freshly constructed
OutputFile's page sequence is exactly the ascending integers
`start, start + 1, …, end`, its length is `end - start + 1`, and after
one full consumption a further run of `pages()` yields nothing, because
the cursor is a mutable field of the object and now sits past the end. -/
theorem output_file_pages_spec (path nm : String) (st en pc : Int)
    (h1 : 1 ≤ st) (h2 : st ≤ en) (h3 : en ≤ pc) :
    ((OutputFile.init path nm (st, en)).pages).1 =
      (List.range (en + 1 - st).toNat).map (fun (i : Nat) => st + (i : Int)) ∧
    (((OutputFile.init path nm (st, en)).pages).1).length = (en - st + 1).toNat ∧
    ((((OutputFile.init path nm (st, en)).pages).2).pages).1 = [] := by
  refine ⟨?_, ?_, ?_⟩
  · simp only [OutputFile.pages, OutputFile.init]
    rw [pagesRun_closed]
  · simp only [OutputFile.pages, OutputFile.init]
    rw [pagesRun_closed]
    simp only [List.length_map, List.length_range]
    omega
  · simp only [OutputFile.pages, OutputFile.init]
    rw [pagesRun_closed st en]
    simp only [if_pos h2]
    rw [pagesRun_closed (en + 1) en]
    have hz : (en + 1 - (en + 1)).toNat = 0 := by omega
    rw [hz]
    simp

theorem output_file_pages_spec_witness :
    ((OutputFile.init "" "x" (2, 4)).pages).1 =
      (List.range ((4 : Int) + 1 - 2).toNat).map (fun (i : Nat) => (2 : Int) + (i : Int)) ∧
    (((OutputFile.init "" "x" (2, 4)).pages).1).length = ((4 : Int) - 2 + 1).toNat ∧
    ((((OutputFile.init "" "x" (2, 4)).pages).2).pages).1 = [] :=
  output_file_pages_spec "" "x" 2 4 5 (by decide) (by decide) (by decide)

/-- C4 counterexample: the claim says `list_pdf_files` returns `None`
without distinguishing a path that exists but is not a directory from one
that does not exist.  On the concrete filesystem `fsFile`, the path
`notes.txt` exists but is not a directory: the call does not return
`None` — it raises `NotADirectoryError` from `os.listdir` (the code only
checks `os.path.exists`, which is true for a regular file) — while the
nonexistent path `missing` does yield `None`.  The two cases are thus
distinguished, refuting the claim as stated. -/
theorem list_pdf_files_claim_counterexample :
    fsFile.pathExists "notes.txt" = true ∧
    list_pdf_files fsFile "notes.txt" = ListPdfResult.notADirectory ∧
    ¬ list_pdf_files fsFile "notes.txt" = ListPdfResult.notFound ∧
    list_pdf_files fsFile "missing" = ListPdfResult.notFound := by
  decide

/-- C4 (amended): `list_pdf_files` signals NotFound (returns `None`)
exactly for the paths that do not exist on the filesystem; for a path
that exists but is not a directory it instead raises
`NotADirectoryError` (so that case is distinguished from NotFound); for
every existing directory it returns exactly the direct entries whose
name lowercases to end in `.pdf`, with no other side effects. -/
theorem list_pdf_files_characterization (fs : FS) (p : String) :
    (list_pdf_files fs p = ListPdfResult.notFound ↔ fs.pathExists p = false) ∧
    (list_pdf_files fs p = ListPdfResult.notADirectory ↔
      (fs.pathExists p = true ∧ fs.isDir p = false)) ∧
    (∀ l, list_pdf_files fs p = ListPdfResult.files l →
      (l = (fs.listdir p).filter (fun f => strEndsWith (strLower f) ".pdf") ∧
       ∀ f, f ∈ l ↔ (f ∈ fs.listdir p ∧ strEndsWith (strLower f) ".pdf" = true))) := by
  cases he : fs.pathExists p <;> cases hd : fs.isDir p <;>
    simp [list_pdf_files, he, hd, List.mem_filter]

theorem list_pdf_files_characterization_witness :
    (["a.PDF"] : List String) =
      (fsDir.listdir "d").filter (fun f => strEndsWith (strLower f) ".pdf") ∧
    ∀ f, f ∈ (["a.PDF"] : List String) ↔
      (f ∈ fsDir.listdir "d" ∧ strEndsWith (strLower f) ".pdf" = true) :=
  (list_pdf_files_characterization fsDir "d").2.2 ["a.PDF"] (by decide)

/-- When every page number handed to the reader is a valid 1-based page,
the writer loop succeeds and the document holds the 0-based indices. -/
theorem addPages_ok (r : PdfFileReader) : ∀ ps : List Int,
    (∀ p ∈ ps, 1 ≤ p ∧ p ≤ r.numPages) →
    addPages r ps = Except.ok (ps.map (fun p => p - 1)) := by
  intro ps
  induction ps with
  | nil => intro _; simp [addPages]
  | cons p ps ih =>
    intro h
    have hp := h p (by simp)
    have hg : r.getPage (p - 1) = Except.ok (p - 1) := by
      rw [PdfFileReader.getPage, if_pos (by omega)]
    simp only [addPages, hg, ih (fun q hq => h q (by simp [hq])), List.map_cons]

/-- For a fresh valid plan, the writer loop over the consumed page
sequence produces exactly the planned document. -/
theorem addPages_fresh (r : PdfFileReader) (o : OutputFile) (h : validPlan r o) :
    addPages r ((OutputFile.pages o).1) = Except.ok (docOf o) := by
  obtain ⟨hc, h1, h2, h3⟩ := h
  have hpg : (OutputFile.pages o).1 =
      (List.range (o.page_interval.2 + 1 - o.page_interval.1).toNat).map
        (fun (i : Nat) => o.page_interval.1 + (i : Int)) := by
    simp only [OutputFile.pages]
    rw [hc, pagesRun_closed]
  have hb : ∀ p ∈ (List.range (o.page_interval.2 + 1 - o.page_interval.1).toNat).map
      (fun (i : Nat) => o.page_interval.1 + (i : Int)), 1 ≤ p ∧ p ≤ r.numPages := by
    intro p hp
    simp only [List.mem_map, List.mem_range] at hp
    obtain ⟨i, hi, rfl⟩ := hp
    omega
  rw [hpg, addPages_ok r _ hb]
  simp only [docOf, List.map_map]
  have hf : ((fun (p : Int) => p - 1) ∘ fun (i : Nat) => o.page_interval.1 + (i : Int)) =
      (fun (i : Nat) => o.page_interval.1 - 1 + (i : Int)) := by
    funext i
    simp only [Function.comp]
    omega
  rw [hf]

/-- When every planned output is fresh, within bounds and writable, the
generation loop completes with the full trace, in plan order. -/
theorem generate_ok (r : PdfFileReader) (wok : String → Bool) :
    ∀ outs : List OutputFile, (∀ o ∈ outs, validPlan r o ∧ wok o.stream = true) →
    generate_output_files r wok outs = (outs.flatMap evsOf, none) := by
  intro outs
  induction outs with
  | nil => intro _; simp [generate_output_files]
  | cons o rest ih =>
    intro h
    have ho := h o (by simp)
    simp only [generate_output_files, addPages_fresh r o ho.1, ho.2, if_true]
    rw [ih (fun q hq => h q (by simp [hq]))]
    simp [evsOf, List.flatMap_cons]

/-- When the prefix succeeds and output `bad` fails to write, the trace
stops after the prefix and the `IOError` propagates. -/
theorem generate_abort_aux (r : PdfFileReader) (wok : String → Bool)
    (bad : OutputFile) (post : List OutputFile)
    (hbad : validPlan r bad) (hw : wok bad.stream = false) :
    ∀ pre : List OutputFile, (∀ o ∈ pre, validPlan r o ∧ wok o.stream = true) →
    generate_output_files r wok (pre ++ bad :: post) =
      (pre.flatMap evsOf, some PyErr.ioError) := by
  intro pre
  induction pre with
  | nil =>
    intro _
    simp only [List.nil_append, generate_output_files, addPages_fresh r bad hbad, hw]
    simp
  | cons o rest ih =>
    intro h
    have ho := h o (by simp)
    simp only [List.cons_append, generate_output_files, addPages_fresh r o ho.1,
      ho.2, if_true]
    simp only [List.append_eq]
    rw [ih (fun q hq => h q (by simp [hq]))]
    simp [evsOf, List.flatMap_cons]

/-- Valid plans never produce an `IndexError` during generation. -/
theorem generate_no_index_error (r : PdfFileReader) (wok : String → Bool) :
    ∀ outs : List OutputFile, (∀ o ∈ outs, validPlan r o) →
    (generate_output_files r wok outs).2 ≠ some PyErr.indexError := by
  intro outs
  induction outs with
  | nil => intro _; simp [generate_output_files]
  | cons o rest ih =>
    intro h
    have ho := h o (by simp)
    simp only [generate_output_files, addPages_fresh r o ho]
    cases hw : wok o.stream
    · simp
    · simp only [if_true]
      exact ih (fun q hq => h q (by simp [hq]))

/-- C5: `generate_output_files` processes the planned outputs strictly in
plan order; for each output it appends the source pages of its inclusive
1-indexed interval `[start, end]` in ascending order (0-based indices
`start - 1, …, end - 1`) into a fresh writer document (`docOf`), writes
that document to the output's stream, and only then invokes the
completion callback — the trace is exactly the concatenation of each
output's `[wrote, generated]` event pair in plan order. -/
theorem generate_in_plan_order (r : PdfFileReader) (wok : String → Bool)
    (outs : List OutputFile)
    (h : ∀ o ∈ outs, validPlan r o ∧ wok o.stream = true) :
    generate_output_files r wok outs = (outs.flatMap evsOf, none) :=
  generate_ok r wok outs h

theorem generate_in_plan_order_witness :
    generate_output_files rdr3 (fun _ => true)
      [OutputFile.init "" "a.pdf" (1, 2), OutputFile.init "" "b.pdf" (2, 3)] =
      ([OutputFile.init "" "a.pdf" (1, 2), OutputFile.init "" "b.pdf" (2, 3)].flatMap evsOf,
       none) :=
  generate_in_plan_order rdr3 (fun _ => true)
    [OutputFile.init "" "a.pdf" (1, 2), OutputFile.init "" "b.pdf" (2, 3)] (by decide)

/-- C6: if writing fails for one output during generation, the failure
propagates out of `generate_output_files`: the trace holds exactly the
events of the outputs before the failing one (no later output is
generated, and the earlier fully written outputs are not rolled back),
and the driver reports the error once, with a message distinguishing
file-not-found, I/O error, and a catch-all unexpected-error category. -/
theorem generate_failure_aborts (r : PdfFileReader) (wok : String → Bool)
    (pre : List OutputFile) (bad : OutputFile) (post : List OutputFile)
    (hpre : ∀ o ∈ pre, validPlan r o ∧ wok o.stream = true)
    (hbad : validPlan r bad) (hw : wok bad.stream = false) :
    generate_output_files r wok (pre ++ bad :: post) =
      (pre.flatMap evsOf, some PyErr.ioError) ∧
    (∀ sf, reportGenError sf PyErr.fileNotFound = "File not found: " ++ sf) ∧
    (∀ sf, reportGenError sf PyErr.ioError = "Error reading file: " ++ sf) ∧
    (∀ sf m, reportGenError sf (PyErr.other m) = "An unexpected error occurred: " ++ m) :=
  ⟨generate_abort_aux r wok bad post hbad hw pre hpre,
   fun _ => rfl, fun _ => rfl, fun _ _ => rfl⟩

theorem generate_failure_aborts_witness :
    generate_output_files rdr3 (fun s => s == "a.pdf")
      ([OutputFile.init "" "a.pdf" (1, 2)] ++
        OutputFile.init "" "b.pdf" (2, 3) :: [OutputFile.init "" "c.pdf" (1, 1)]) =
      ([OutputFile.init "" "a.pdf" (1, 2)].flatMap evsOf, some PyErr.ioError) ∧
    (∀ sf, reportGenError sf PyErr.fileNotFound = "File not found: " ++ sf) ∧
    (∀ sf, reportGenError sf PyErr.ioError = "Error reading file: " ++ sf) ∧
    (∀ sf m, reportGenError sf (PyErr.other m) = "An unexpected error occurred: " ++ m) :=
  generate_failure_aborts rdr3 (fun s => s == "a.pdf")
    [OutputFile.init "" "a.pdf" (1, 2)] (OutputFile.init "" "b.pdf" (2, 3))
    [OutputFile.init "" "c.pdf" (1, 1)] (by decide) (by decide) (by decide)

/-- C8: given the prompt bounds `1 ≤ start ≤ end ≤ page_count` on every
planned output, every page index passed to the source reader during
generation — `page_number - 1` for each yielded `page_number` — lies in
`[0, page_count - 1]`, and generation never aborts with the reader's
`IndexError`. -/
theorem generation_pages_in_range (r : PdfFileReader) (wok : String → Bool)
    (outs : List OutputFile) (h : ∀ o ∈ outs, validPlan r o) :
    (∀ o ∈ outs, ∀ p ∈ ((OutputFile.pages o).1),
        0 ≤ p - 1 ∧ p - 1 ≤ r.numPages - 1) ∧
    (generate_output_files r wok outs).2 ≠ some PyErr.indexError := by
  constructor
  · intro o ho p hp
    obtain ⟨hc, h1, h2, h3⟩ := h o ho
    have hm := mem_pagesRun p o.current_page o.page_interval.2 hp
    omega
  · exact generate_no_index_error r wok outs h

theorem generation_pages_in_range_witness :
    (∀ o ∈ [OutputFile.init "" "a.pdf" (2, 3)], ∀ p ∈ ((OutputFile.pages o).1),
        0 ≤ p - 1 ∧ p - 1 ≤ rdr3.numPages - 1) ∧
    (generate_output_files rdr3 (fun _ => true)
      [OutputFile.init "" "a.pdf" (2, 3)]).2 ≠ some PyErr.indexError :=
  generation_pages_in_range rdr3 (fun _ => true)
    [OutputFile.init "" "a.pdf" (2, 3)] (by decide)

/-- C9 (round-trip): for a source of `N ≥ 1` pages, generation with the
single planned output covering `(1, N)` writes a document that holds
exactly the `N` source pages (0-based indices `0, …, N - 1`) in the
original source order. -/
theorem split_full_interval_round_trip (r : PdfFileReader) (wok : String → Bool)
    (path nm : String) (h1 : 1 ≤ r.numPages)
    (hw : wok (OutputFile.init path nm (1, r.numPages)).stream = true) :
    generate_output_files r wok [OutputFile.init path nm (1, r.numPages)] =
      ([Ev.wrote (osPathJoin path nm)
          ((List.range r.numPages.toNat).map (fun (i : Nat) => (i : Int))),
        Ev.generated nm (1, r.numPages)], none) ∧
    ((List.range r.numPages.toNat).map (fun (i : Nat) => (i : Int))).length =
      r.numPages.toNat := by
  constructor
  · rw [generate_ok r wok [OutputFile.init path nm (1, r.numPages)]
      (by
        intro o ho
        simp only [List.mem_singleton] at ho
        subst ho
        exact ⟨⟨rfl, le_refl 1, h1, le_refl r.numPages⟩, hw⟩)]
    have e1 : r.numPages + 1 - 1 = r.numPages := by ring
    have e2 : (fun (i : Nat) => (1 : Int) - 1 + (i : Int)) =
        (fun (i : Nat) => (i : Int)) := by
      funext i
      omega
    simp only [List.flatMap_cons, List.flatMap_nil, evsOf, docOf, OutputFile.init]
    rw [e1, e2]
    simp
  · simp

theorem split_full_interval_round_trip_witness :
    generate_output_files rdr3 (fun _ => true)
      [OutputFile.init "" "all.pdf" (1, rdr3.numPages)] =
      ([Ev.wrote (osPathJoin "" "all.pdf")
          ((List.range rdr3.numPages.toNat).map (fun (i : Nat) => (i : Int))),
        Ev.generated "all.pdf" (1, rdr3.numPages)], none) ∧
    ((List.range rdr3.numPages.toNat).map (fun (i : Nat) => (i : Int))).length =
      rdr3.numPages.toNat :=
  split_full_interval_round_trip rdr3 (fun _ => true) "" "all.pdf"
    (by decide) (by decide)

/-- C2: for `min ≤ max`, whenever `get_int` returns, the returned value
is a parsed integer `x` with `min ≤ x ≤ max`; every earlier stdin line
was rejected and re-prompted — printing the fixed not-a-number message
when the line does not parse as an integer, and `error_msg` when it
parses to a value outside `[min, max]` — so the returned value is always
the first valid integer entered. -/
theorem get_int_first_valid (error_msg : String) (mn mx : Int) :
    ∀ (stdin : List String) (x : Int) (msgs rem : List String),
    mn ≤ mx →
    get_int error_msg mn mx stdin = some (x, msgs, rem) →
    (mn ≤ x ∧ x ≤ mx) ∧
    ∃ pre line, stdin = pre ++ line :: rem ∧ parsePyInt line = some x ∧
      (∀ l ∈ pre, ¬ intValid mn mx l) ∧ msgs = pre.map (rejectMsg error_msg) := by
  intro stdin
  induction stdin with
  | nil =>
    intro x msgs rem hmm h
    simp [get_int] at h
  | cons line rest ih =>
    intro x msgs rem hmm h
    simp only [get_int] at h
    cases hp : parsePyInt line with
    | none =>
      simp only [hp] at h
      cases hrec : get_int error_msg mn mx rest with
      | none => simp [hrec] at h
      | some w =>
        obtain ⟨y, m, rr⟩ := w
        simp only [hrec, Option.some.injEq, Prod.mk.injEq] at h
        obtain ⟨hy, hm, hr⟩ := h
        subst hy
        subst hr
        obtain ⟨hx, pre, l2, hsplit, hpl, hinv, hmsgs⟩ := ih y m rr hmm hrec
        refine ⟨hx, line :: pre, l2, by rw [hsplit]; rfl, hpl, ?_, ?_⟩
        · intro l hl
          rcases List.mem_cons.mp hl with hl | hl
          · subst hl
            rintro ⟨z, hz, _, _⟩
            rw [hp] at hz
            cases hz
          · exact hinv l hl
        · rw [← hm, List.map_cons, ← hmsgs]
          simp [rejectMsg, hp]
    | some v =>
      simp only [hp] at h
      by_cases hin : mn ≤ v ∧ v ≤ mx
      · rw [if_pos hin] at h
        simp only [Option.some.injEq, Prod.mk.injEq] at h
        obtain ⟨hy, hm, hr⟩ := h
        subst hy
        subst hr
        refine ⟨hin, [], line, by simp, hp, by simp, by rw [← hm]; simp⟩
      · rw [if_neg hin] at h
        cases hrec : get_int error_msg mn mx rest with
        | none => simp [hrec] at h
        | some w =>
          obtain ⟨y, m, rr⟩ := w
          simp only [hrec, Option.some.injEq, Prod.mk.injEq] at h
          obtain ⟨hy, hm, hr⟩ := h
          subst hy
          subst hr
          obtain ⟨hx, pre, l2, hsplit, hpl, hinv, hmsgs⟩ := ih y m rr hmm hrec
          refine ⟨hx, line :: pre, l2, by rw [hsplit]; rfl, hpl, ?_, ?_⟩
          · intro l hl
            rcases List.mem_cons.mp hl with hl | hl
            · subst hl
              rintro ⟨z, hz, hz1, hz2⟩
              rw [hp] at hz
              injection hz with hvz
              subst hvz
              exact hin ⟨hz1, hz2⟩
            · exact hinv l hl
          · rw [← hm, List.map_cons, ← hmsgs]
            simp [rejectMsg, hp]

theorem get_int_first_valid_witness :
    ((1 : Int) ≤ 7 ∧ (7 : Int) ≤ 10) ∧
    ∃ pre line, ["abc", "50", "7"] = pre ++ line :: ([] : List String) ∧
      parsePyInt line = some 7 ∧
      (∀ l ∈ pre, ¬ intValid 1 10 l) ∧
      [not_a_number_msg, "err"] = pre.map (rejectMsg "err") :=
  get_int_first_valid "err" 1 10 ["abc", "50", "7"] 7 [not_a_number_msg, "err"] []
    (by decide) (by decide)

/-- C10: `get_output_files` appends the `.pdf` suffix to whatever string
`get_file_name` returns — the conclusion holds for every name line `nm`,
whether or not its trimmed value passes validation — and constructs the
OutputFile immediately during plan collection: the destination path
`os.path.join(path, name + ".pdf")` appears in the list of files opened
(created or truncated by `open(..., 'wb')`) before any generation runs.
In particular, for a name line that is empty after trimming, the planned
destination file is named exactly `.pdf` (instantiated by the witness). -/
theorem get_output_files_plan_names (path : String) (pc : Int)
    (c nm s e : String) (rest : List String) (st en : Int)
    (hc : parsePyInt c = some 1)
    (hs : parsePyInt s = some st) (hs1 : 1 ≤ st) (hs2 : st ≤ pc)
    (he : parsePyInt e = some en) (he1 : st ≤ en) (he2 : en ≤ pc) :
    ∃ msgs, get_output_files path pc (c :: nm :: s :: e :: rest) =
      some ⟨[OutputFile.init path (pyStrip nm ++ ".pdf") (st, en)], msgs,
            [osPathJoin path (pyStrip nm ++ ".pdf")], rest⟩ ∧
      (OutputFile.init path (pyStrip nm ++ ".pdf") (st, en)).name =
        pyStrip nm ++ ".pdf" := by
  have hgi : get_int "Please enter a number between 1 and 100" 1 100
      (c :: nm :: s :: e :: rest) = some (1, [], nm :: s :: e :: rest) := by
    simp only [get_int, hc]
    norm_num
  obtain ⟨m1, hm1⟩ : ∃ m1, get_file_name false (nm :: s :: e :: rest) =
      some (pyStrip nm, m1, s :: e :: rest) := by
    cases hfc : fileNameCheck (pyStrip nm) false with
    | none => exact ⟨[], by simp [get_file_name, hfc]⟩
    | some m => exact ⟨[m], by simp [get_file_name, hfc]⟩
  have hgs : get_int "Invalid page number" 1 pc (s :: e :: rest) =
      some (st, [], e :: rest) := by
    simp only [get_int, hs]
    rw [if_pos ⟨hs1, hs2⟩]
  have hge : get_int "Invalid page number" st pc (e :: rest) =
      some (en, [], rest) := by
    simp only [get_int, he]
    rw [if_pos ⟨he1, he2⟩]
  refine ⟨m1, ?_, rfl⟩
  simp only [get_output_files, hgi]
  rw [show (1 : Int).toNat = Nat.succ 0 from rfl]
  simp only [collectTargets, hm1, hgs, hge]
  simp [OutputFile.init]

theorem get_output_files_plan_names_witness :
    fileNameCheck (pyStrip "") false = some "File name cannot be empty." ∧
    pyStrip "" ++ ".pdf" = ".pdf" ∧
    (∃ msgs, get_output_files "." 2 ["1", "", "1", "2"] =
      some ⟨[OutputFile.init "." (pyStrip "" ++ ".pdf") (1, 2)], msgs,
            [osPathJoin "." (pyStrip "" ++ ".pdf")], []⟩ ∧
      (OutputFile.init "." (pyStrip "" ++ ".pdf") (1, 2)).name =
        pyStrip "" ++ ".pdf") :=
  ⟨by decide, by decide,
   get_output_files_plan_names "." 2 "1" "" "1" "2" [] 1 2 (by decide) (by decide)
     (by decide) (by decide) (by decide) (by decide) (by decide)⟩
